import Mathlib

/-!
Verification of the configuration model in `pyembed/src/config.rs`
(PyOxidizer). The Rust data structures are shallowly embedded as Lean
structures and inductives; the `Default` implementation becomes an
executable function parameterised by the compile-time target flag
`cfg!(windows)`.
-/

/-- Error returned by `CString::new` when the input contains an interior
NUL byte (mirrors `std::ffi::NulError`). -/
inductive NulError
  | interiorNul

/-- A NUL-terminated native string, modelled at the character level: the
stored characters are exactly the characters of the source string, and the
invariant records that none of them is the terminator `U+0000` (a UTF-8
encoding contains the byte 0 iff the text contains `U+0000`). Mirrors
`std::ffi::CString`. -/
structure CString where
  chars : List Char
  no_nul : Char.ofNat 0 ∉ chars

/-- Fallible constructor of `CString` from a string; fails exactly when the
string contains an interior NUL character (mirrors `CString::new`). -/
def CString.new (s : String) : Except NulError CString :=
  if h : Char.ofNat 0 ∈ s.data then Except.error NulError.interiorNul
  else Except.ok ⟨s.data, h⟩

/-- Convert a `CString` back to a display string (mirrors
`CString::to_str` followed by `to_string` on a valid UTF-8 value). -/
def CString.toStr (c : CString) : String := String.mk c.chars

/-- Defines which allocator to use for the raw domain
(`PythonRawAllocator` in `config.rs`; the spec calls the variants
`Jemalloc | ProcessGlobal | SystemDefault`). -/
inductive PythonRawAllocator
  | Jemalloc
  | Rust
  | System

/-- Defines Python code to run (`PythonRunMode` in `config.rs`). The
`File` variant stores a pre-converted native string. -/
inductive PythonRunMode
  | None
  | Repl
  | Module (module : String)
  | Eval (code : String)
  | File (path : CString)

/-- Defines terminfo database resolution semantics (`TerminfoResolution`
in `config.rs`). -/
inductive TerminfoResolution
  | Dynamic
  | None
  | Static (dirs : String)

/-- Opaque handle standing for the native extension-module initialization
function pointer (`unsafe fn() -> *mut PyObject` in the source). The model
never invokes it; only its identity matters, so it is modelled as an
address. -/
abbrev InitFunc : Type := Nat

/-- Defines an extra extension module to load (`ExtensionModule` in
`config.rs`): a native-string name paired with the entry-point handle. -/
structure ExtensionModule where
  name : CString
  init_func : InitFunc

/-- Holds the configuration of an embedded Python interpreter
(`PythonConfig` in `config.rs`), field for field. Rust `i32` fields become
`Int` (no arithmetic is performed on them in this core), `Vec`/`&[u8]`
become lists. -/
structure PythonConfig where
  standard_io_encoding : Option String
  standard_io_errors : Option String
  opt_level : Int
  use_custom_importlib : Bool
  filesystem_importer : Bool
  sys_paths : List String
  bytes_warning : Int
  import_site : Bool
  import_user_site : Bool
  ignore_python_env : Bool
  inspect : Bool
  interactive : Bool
  isolated : Bool
  legacy_windows_fs_encoding : Bool
  legacy_windows_stdio : Bool
  write_bytecode : Bool
  unbuffered_stdio : Bool
  parser_debug : Bool
  quiet : Bool
  use_hash_seed : Bool
  verbose : Int
  packed_resources : List UInt8
  extra_extension_modules : List ExtensionModule
  argvb : Bool
  sys_frozen : Bool
  sys_meipass : Bool
  raw_allocator : PythonRawAllocator
  terminfo_resolution : TerminfoResolution
  write_modules_directory_env : Option String
  run : PythonRunMode

/-- The `Default` implementation for `PythonConfig` in `config.rs`,
parameterised by the compile-time flag `cfg!(windows)` (true on the
Windows-family target). -/
def PythonConfig.default (windows : Bool) : PythonConfig where
  standard_io_encoding := none
  standard_io_errors := none
  opt_level := 0
  use_custom_importlib := false
  filesystem_importer := false
  sys_paths := []
  bytes_warning := 0
  import_site := false
  import_user_site := false
  ignore_python_env := true
  inspect := false
  interactive := false
  isolated := false
  legacy_windows_fs_encoding := false
  legacy_windows_stdio := false
  write_bytecode := false
  unbuffered_stdio := false
  parser_debug := false
  quiet := false
  use_hash_seed := false
  verbose := 0
  packed_resources := []
  extra_extension_modules := []
  argvb := false
  sys_frozen := false
  sys_meipass := false
  raw_allocator := if windows then PythonRawAllocator.System else PythonRawAllocator.Jemalloc
  terminfo_resolution := TerminfoResolution.Dynamic
  write_modules_directory_env := none
  run := PythonRunMode.None

/-- Error raised when a run-directive `File` path cannot be converted to
the native-string representation (spec section 7). -/
inductive PathEncodingError
  | pathNul

/-- Error raised when an extension-module name cannot be converted to the
native-string representation (spec section 7). -/
inductive NameEncodingError
  | nameNul

/-- Modelled from the spec: the constructor of the `File` run-directive
variant from a path string. `config.rs` only declares
`File { path: CString }` and documents that the constructor performs the
type coercion; the coercion itself is `CString::new`, which fails exactly
on an embedded terminator byte, and the spec says this failure surfaces as
`PathEncodingError` at construction time. -/
def PythonRunMode.file (path : String) : Except PathEncodingError PythonRunMode :=
  match CString.new path with
  | Except.ok c => Except.ok (PythonRunMode.File c)
  | Except.error _ => Except.error PathEncodingError.pathNul

/-- Modelled from the spec: the constructor of an `ExtensionModule` from a
name string and an entry-point reference. `config.rs` only declares the
struct with `name: CString`; the spec says construction fails with
`NameEncodingError` exactly when the name cannot be represented as a
native string (embedded terminator byte), analogous to the `File` case. -/
def ExtensionModule.new (name : String) (f : InitFunc) :
    Except NameEncodingError ExtensionModule :=
  match CString.new name with
  | Except.ok c => Except.ok ⟨c, f⟩
  | Except.error _ => Except.error NameEncodingError.nameNul

/-- Claim C4: for every path string containing an embedded terminator
(NUL) character, constructing the `File` run directive fails with
`PathEncodingError`; the `Except` result shape means no partial `File`
value is produced and the failure surfaces at construction time. -/
theorem file_with_nul_fails (path : String) (h : Char.ofNat 0 ∈ path.data) :
    PythonRunMode.file path = Except.error PathEncodingError.pathNul := by
  simp [PythonRunMode.file, CString.new, h]

/-- Witness for C4 at the concrete path `"a\x00b"`. -/
theorem file_with_nul_fails_witness :
    Char.ofNat 0 ∈ ("a\x00b").data ∧
      PythonRunMode.file "a\x00b" = Except.error PathEncodingError.pathNul :=
  ⟨by decide, file_with_nul_fails "a\x00b" (by decide)⟩

/-- Claim C5: for every path string with no embedded terminator character,
constructing the `File` run directive succeeds, and converting the stored
native string back to a display string yields exactly the original
path. -/
theorem file_roundtrip (path : String) (h : Char.ofNat 0 ∉ path.data) :
    PythonRunMode.file path = Except.ok (PythonRunMode.File ⟨path.data, h⟩) ∧
      CString.toStr ⟨path.data, h⟩ = path := by
  refine ⟨?_, rfl⟩
  simp [PythonRunMode.file, CString.new, h]

/-- Witness for C5 at the concrete path `"/tmp/app.py"`. -/
theorem file_roundtrip_witness :
    Char.ofNat 0 ∉ ("/tmp/app.py").data ∧
      (PythonRunMode.file "/tmp/app.py" =
          Except.ok (PythonRunMode.File ⟨("/tmp/app.py").data, by decide⟩) ∧
        CString.toStr ⟨("/tmp/app.py").data, by decide⟩ = "/tmp/app.py") :=
  ⟨by decide, file_roundtrip "/tmp/app.py" (by decide)⟩

/-- Claim C6: constructing an `ExtensionModule` from a name and an
entry-point reference fails with `NameEncodingError` exactly when the name
contains an embedded terminator character (cannot be represented as a
native string); otherwise it succeeds with a value holding exactly the
name and the entry-point reference. -/
theorem extension_module_new_characterisation (name : String) (f : InitFunc) :
    (Char.ofNat 0 ∈ name.data →
        ExtensionModule.new name f = Except.error NameEncodingError.nameNul) ∧
      (∀ h : Char.ofNat 0 ∉ name.data,
        ExtensionModule.new name f = Except.ok ⟨⟨name.data, h⟩, f⟩) := by
  constructor
  · intro h
    simp [ExtensionModule.new, CString.new, h]
  · intro h
    simp [ExtensionModule.new, CString.new, h]

/-- Witness for C6 at the concrete names `"ok_name"` (success, value holds
the name and entry point 7) and `"bad\x00name"` (failure). -/
theorem extension_module_new_characterisation_witness :
    ExtensionModule.new "ok_name" 7 =
        Except.ok ⟨⟨("ok_name").data, by decide⟩, 7⟩ ∧
      ExtensionModule.new "bad\x00name" 7 =
        Except.error NameEncodingError.nameNul :=
  ⟨(extension_module_new_characterisation "ok_name" 7).2 (by decide),
   (extension_module_new_characterisation "bad\x00name" 7).1 (by decide)⟩

/-- Claim C1: the default configuration has `run = PythonRunMode.None`
and `raw_allocator = System` on the Windows-family target and `Jemalloc`
on every other target. -/
theorem default_run_and_allocator (windows : Bool) :
    (PythonConfig.default windows).run = PythonRunMode.None ∧
    (PythonConfig.default windows).raw_allocator =
      (if windows then PythonRawAllocator.System else PythonRawAllocator.Jemalloc) :=
  ⟨rfl, rfl⟩

/-- Claim C2: in the default configuration every boolean behaviour switch
is `false`, with the single exception of `ignore_python_env`, which is
`true`. -/
theorem default_boolean_switches (windows : Bool) :
    (PythonConfig.default windows).use_custom_importlib = false ∧
    (PythonConfig.default windows).filesystem_importer = false ∧
    (PythonConfig.default windows).import_site = false ∧
    (PythonConfig.default windows).import_user_site = false ∧
    (PythonConfig.default windows).inspect = false ∧
    (PythonConfig.default windows).interactive = false ∧
    (PythonConfig.default windows).isolated = false ∧
    (PythonConfig.default windows).legacy_windows_fs_encoding = false ∧
    (PythonConfig.default windows).legacy_windows_stdio = false ∧
    (PythonConfig.default windows).write_bytecode = false ∧
    (PythonConfig.default windows).unbuffered_stdio = false ∧
    (PythonConfig.default windows).parser_debug = false ∧
    (PythonConfig.default windows).quiet = false ∧
    (PythonConfig.default windows).use_hash_seed = false ∧
    (PythonConfig.default windows).argvb = false ∧
    (PythonConfig.default windows).sys_frozen = false ∧
    (PythonConfig.default windows).sys_meipass = false ∧
    (PythonConfig.default windows).ignore_python_env = true :=
  ⟨rfl, rfl, rfl, rfl, rfl, rfl, rfl, rfl, rfl, rfl, rfl, rfl, rfl, rfl,
   rfl, rfl, rfl, rfl⟩

/-- Claim C3: in the default configuration the numeric fields `opt_level`,
`bytes_warning` and `verbose` are all `0`; `sys_paths` and
`extra_extension_modules` are empty sequences; `packed_resources` is the
empty buffer; and `terminfo_resolution` is the `Dynamic` variant. -/
theorem default_numeric_and_sequence_fields (windows : Bool) :
    (PythonConfig.default windows).opt_level = 0 ∧
    (PythonConfig.default windows).bytes_warning = 0 ∧
    (PythonConfig.default windows).verbose = 0 ∧
    (PythonConfig.default windows).sys_paths = [] ∧
    (PythonConfig.default windows).extra_extension_modules = [] ∧
    (PythonConfig.default windows).packed_resources = [] ∧
    (PythonConfig.default windows).terminfo_resolution = TerminfoResolution.Dynamic :=
  ⟨rfl, rfl, rfl, rfl, rfl, rfl, rfl⟩

/-- A selection of field overrides for `PythonConfig`: one optional new
value per field. Models the Rust "default then override some fields"
construction pattern (`PythonConfig { field: v, ..Default::default() }`
or plain field assignment on a `mut` value). -/
structure Overrides where
  standard_io_encoding : Option (Option String) := none
  standard_io_errors : Option (Option String) := none
  opt_level : Option Int := none
  use_custom_importlib : Option Bool := none
  filesystem_importer : Option Bool := none
  sys_paths : Option (List String) := none
  bytes_warning : Option Int := none
  import_site : Option Bool := none
  import_user_site : Option Bool := none
  ignore_python_env : Option Bool := none
  inspect : Option Bool := none
  interactive : Option Bool := none
  isolated : Option Bool := none
  legacy_windows_fs_encoding : Option Bool := none
  legacy_windows_stdio : Option Bool := none
  write_bytecode : Option Bool := none
  unbuffered_stdio : Option Bool := none
  parser_debug : Option Bool := none
  quiet : Option Bool := none
  use_hash_seed : Option Bool := none
  verbose : Option Int := none
  packed_resources : Option (List UInt8) := none
  extra_extension_modules : Option (List ExtensionModule) := none
  argvb : Option Bool := none
  sys_frozen : Option Bool := none
  sys_meipass : Option Bool := none
  raw_allocator : Option PythonRawAllocator := none
  terminfo_resolution : Option TerminfoResolution := none
  write_modules_directory_env : Option (Option String) := none
  run : Option PythonRunMode := none

/-- Apply a set of field overrides to a configuration: each field present
in the override set replaces the corresponding field, every absent field
is kept. This is ordinary per-field record assignment; the source performs
no validation or cross-field logic here. -/
def applyOverrides (o : Overrides) (c : PythonConfig) : PythonConfig where
  standard_io_encoding := o.standard_io_encoding.getD c.standard_io_encoding
  standard_io_errors := o.standard_io_errors.getD c.standard_io_errors
  opt_level := o.opt_level.getD c.opt_level
  use_custom_importlib := o.use_custom_importlib.getD c.use_custom_importlib
  filesystem_importer := o.filesystem_importer.getD c.filesystem_importer
  sys_paths := o.sys_paths.getD c.sys_paths
  bytes_warning := o.bytes_warning.getD c.bytes_warning
  import_site := o.import_site.getD c.import_site
  import_user_site := o.import_user_site.getD c.import_user_site
  ignore_python_env := o.ignore_python_env.getD c.ignore_python_env
  inspect := o.inspect.getD c.inspect
  interactive := o.interactive.getD c.interactive
  isolated := o.isolated.getD c.isolated
  legacy_windows_fs_encoding := o.legacy_windows_fs_encoding.getD c.legacy_windows_fs_encoding
  legacy_windows_stdio := o.legacy_windows_stdio.getD c.legacy_windows_stdio
  write_bytecode := o.write_bytecode.getD c.write_bytecode
  unbuffered_stdio := o.unbuffered_stdio.getD c.unbuffered_stdio
  parser_debug := o.parser_debug.getD c.parser_debug
  quiet := o.quiet.getD c.quiet
  use_hash_seed := o.use_hash_seed.getD c.use_hash_seed
  verbose := o.verbose.getD c.verbose
  packed_resources := o.packed_resources.getD c.packed_resources
  extra_extension_modules := o.extra_extension_modules.getD c.extra_extension_modules
  argvb := o.argvb.getD c.argvb
  sys_frozen := o.sys_frozen.getD c.sys_frozen
  sys_meipass := o.sys_meipass.getD c.sys_meipass
  raw_allocator := o.raw_allocator.getD c.raw_allocator
  terminfo_resolution := o.terminfo_resolution.getD c.terminfo_resolution
  write_modules_directory_env := o.write_modules_directory_env.getD c.write_modules_directory_env
  run := o.run.getD c.run

/-- Claim C7: overriding any subset of fields of the default configuration
leaves every non-overridden field equal to its default value; assigning
one field never changes another. Stated per field: whenever the override
set does not touch a field, the result agrees with the default on it. -/
theorem override_frame (windows : Bool) (o : Overrides) :
    (o.standard_io_encoding = none →
      (applyOverrides o (PythonConfig.default windows)).standard_io_encoding =
        (PythonConfig.default windows).standard_io_encoding) ∧
    (o.standard_io_errors = none →
      (applyOverrides o (PythonConfig.default windows)).standard_io_errors =
        (PythonConfig.default windows).standard_io_errors) ∧
    (o.opt_level = none →
      (applyOverrides o (PythonConfig.default windows)).opt_level =
        (PythonConfig.default windows).opt_level) ∧
    (o.use_custom_importlib = none →
      (applyOverrides o (PythonConfig.default windows)).use_custom_importlib =
        (PythonConfig.default windows).use_custom_importlib) ∧
    (o.filesystem_importer = none →
      (applyOverrides o (PythonConfig.default windows)).filesystem_importer =
        (PythonConfig.default windows).filesystem_importer) ∧
    (o.sys_paths = none →
      (applyOverrides o (PythonConfig.default windows)).sys_paths =
        (PythonConfig.default windows).sys_paths) ∧
    (o.bytes_warning = none →
      (applyOverrides o (PythonConfig.default windows)).bytes_warning =
        (PythonConfig.default windows).bytes_warning) ∧
    (o.import_site = none →
      (applyOverrides o (PythonConfig.default windows)).import_site =
        (PythonConfig.default windows).import_site) ∧
    (o.import_user_site = none →
      (applyOverrides o (PythonConfig.default windows)).import_user_site =
        (PythonConfig.default windows).import_user_site) ∧
    (o.ignore_python_env = none →
      (applyOverrides o (PythonConfig.default windows)).ignore_python_env =
        (PythonConfig.default windows).ignore_python_env) ∧
    (o.inspect = none →
      (applyOverrides o (PythonConfig.default windows)).inspect =
        (PythonConfig.default windows).inspect) ∧
    (o.interactive = none →
      (applyOverrides o (PythonConfig.default windows)).interactive =
        (PythonConfig.default windows).interactive) ∧
    (o.isolated = none →
      (applyOverrides o (PythonConfig.default windows)).isolated =
        (PythonConfig.default windows).isolated) ∧
    (o.legacy_windows_fs_encoding = none →
      (applyOverrides o (PythonConfig.default windows)).legacy_windows_fs_encoding =
        (PythonConfig.default windows).legacy_windows_fs_encoding) ∧
    (o.legacy_windows_stdio = none →
      (applyOverrides o (PythonConfig.default windows)).legacy_windows_stdio =
        (PythonConfig.default windows).legacy_windows_stdio) ∧
    (o.write_bytecode = none →
      (applyOverrides o (PythonConfig.default windows)).write_bytecode =
        (PythonConfig.default windows).write_bytecode) ∧
    (o.unbuffered_stdio = none →
      (applyOverrides o (PythonConfig.default windows)).unbuffered_stdio =
        (PythonConfig.default windows).unbuffered_stdio) ∧
    (o.parser_debug = none →
      (applyOverrides o (PythonConfig.default windows)).parser_debug =
        (PythonConfig.default windows).parser_debug) ∧
    (o.quiet = none →
      (applyOverrides o (PythonConfig.default windows)).quiet =
        (PythonConfig.default windows).quiet) ∧
    (o.use_hash_seed = none →
      (applyOverrides o (PythonConfig.default windows)).use_hash_seed =
        (PythonConfig.default windows).use_hash_seed) ∧
    (o.verbose = none →
      (applyOverrides o (PythonConfig.default windows)).verbose =
        (PythonConfig.default windows).verbose) ∧
    (o.packed_resources = none →
      (applyOverrides o (PythonConfig.default windows)).packed_resources =
        (PythonConfig.default windows).packed_resources) ∧
    (o.extra_extension_modules = none →
      (applyOverrides o (PythonConfig.default windows)).extra_extension_modules =
        (PythonConfig.default windows).extra_extension_modules) ∧
    (o.argvb = none →
      (applyOverrides o (PythonConfig.default windows)).argvb =
        (PythonConfig.default windows).argvb) ∧
    (o.sys_frozen = none →
      (applyOverrides o (PythonConfig.default windows)).sys_frozen =
        (PythonConfig.default windows).sys_frozen) ∧
    (o.sys_meipass = none →
      (applyOverrides o (PythonConfig.default windows)).sys_meipass =
        (PythonConfig.default windows).sys_meipass) ∧
    (o.raw_allocator = none →
      (applyOverrides o (PythonConfig.default windows)).raw_allocator =
        (PythonConfig.default windows).raw_allocator) ∧
    (o.terminfo_resolution = none →
      (applyOverrides o (PythonConfig.default windows)).terminfo_resolution =
        (PythonConfig.default windows).terminfo_resolution) ∧
    (o.write_modules_directory_env = none →
      (applyOverrides o (PythonConfig.default windows)).write_modules_directory_env =
        (PythonConfig.default windows).write_modules_directory_env) ∧
    (o.run = none →
      (applyOverrides o (PythonConfig.default windows)).run =
        (PythonConfig.default windows).run) :=
  ⟨fun h => by simp [applyOverrides, h], fun h => by simp [applyOverrides, h],
   fun h => by simp [applyOverrides, h], fun h => by simp [applyOverrides, h],
   fun h => by simp [applyOverrides, h], fun h => by simp [applyOverrides, h],
   fun h => by simp [applyOverrides, h], fun h => by simp [applyOverrides, h],
   fun h => by simp [applyOverrides, h], fun h => by simp [applyOverrides, h],
   fun h => by simp [applyOverrides, h], fun h => by simp [applyOverrides, h],
   fun h => by simp [applyOverrides, h], fun h => by simp [applyOverrides, h],
   fun h => by simp [applyOverrides, h], fun h => by simp [applyOverrides, h],
   fun h => by simp [applyOverrides, h], fun h => by simp [applyOverrides, h],
   fun h => by simp [applyOverrides, h], fun h => by simp [applyOverrides, h],
   fun h => by simp [applyOverrides, h], fun h => by simp [applyOverrides, h],
   fun h => by simp [applyOverrides, h], fun h => by simp [applyOverrides, h],
   fun h => by simp [applyOverrides, h], fun h => by simp [applyOverrides, h],
   fun h => by simp [applyOverrides, h], fun h => by simp [applyOverrides, h],
   fun h => by simp [applyOverrides, h], fun h => by simp [applyOverrides, h]⟩

/-- An override set touching only `opt_level` and `isolated`, used to
exercise the frame property at a concrete input. -/
def sampleOverrides : Overrides where
  opt_level := some 2
  isolated := some true

/-- Witness for C7: with an override set touching only `opt_level` and
`isolated`, the untouched fields `standard_io_encoding` and `run` keep
their default values. -/
theorem override_frame_witness :
    (applyOverrides sampleOverrides (PythonConfig.default false)).standard_io_encoding =
        (PythonConfig.default false).standard_io_encoding ∧
      (applyOverrides sampleOverrides (PythonConfig.default false)).run =
        (PythonConfig.default false).run :=
  ⟨(override_frame false sampleOverrides).1 rfl,
   (override_frame false sampleOverrides).2.2.2.2.2.2.2.2.2.2.2.2.2.2.2.2.2.2.2.2.2.2.2.2.2.2.2.2.2
     rfl⟩

/-- Append an extension module to the configuration (models pushing onto
the `extra_extension_modules` vector, the only operation the source
performs on that field). -/
def PythonConfig.addExtensionModule (c : PythonConfig) (em : ExtensionModule) : PythonConfig :=
  { c with extra_extension_modules := c.extra_extension_modules ++ [em] }

/-- Claim C8: appending two extension modules bearing the same name is
accepted by the model: the operation is total, both entries end up in the
sequence in order, and nothing rejects or deduplicates them. -/
theorem duplicate_extension_names_tolerated (c : PythonConfig)
    (em₁ em₂ : ExtensionModule) (_same : em₁.name.chars = em₂.name.chars) :
    ((c.addExtensionModule em₁).addExtensionModule em₂).extra_extension_modules =
      c.extra_extension_modules ++ [em₁, em₂] := by
  simp [PythonConfig.addExtensionModule]

/-- An extension module named `"a"` with entry point 1. -/
def sampleExtA : ExtensionModule := ⟨⟨[Char.ofNat 97], by decide⟩, 1⟩

/-- An extension module named `"a"` with entry point 2 (same name as
`sampleExtA`, different entry point). -/
def sampleExtB : ExtensionModule := ⟨⟨[Char.ofNat 97], by decide⟩, 2⟩

/-- Witness for C8: two modules both named `"a"` are kept side by side in
the sequence of the default configuration. -/
theorem duplicate_extension_names_tolerated_witness :
    sampleExtA.name.chars = sampleExtB.name.chars ∧
      (((PythonConfig.default false).addExtensionModule sampleExtA).addExtensionModule
            sampleExtB).extra_extension_modules =
        (PythonConfig.default false).extra_extension_modules ++ [sampleExtA, sampleExtB] :=
  ⟨rfl,
   duplicate_extension_names_tolerated (PythonConfig.default false) sampleExtA sampleExtB rfl⟩

/-- Claim C9: apart from the `File` run-directive constructor and the
`ExtensionModule` constructor, every operation of this core is total:
defaulting, applying any field overrides, appending an extension module,
and aggregating explicit values for all fields into a configuration all
produce a result for every input (their types are not `Except`-valued and
each application equals a unique configuration value). -/
theorem core_operations_total :
    (∀ windows : Bool, ∃ c : PythonConfig, PythonConfig.default windows = c) ∧
    (∀ (o : Overrides) (c : PythonConfig), ∃ d : PythonConfig, applyOverrides o c = d) ∧
    (∀ (c : PythonConfig) (em : ExtensionModule), ∃ d : PythonConfig,
      c.addExtensionModule em = d) ∧
    (∀ (sioEnc sioErr wmde : Option String) (optLevel bytesWarning verb : Int)
      (uci fi is ius ipe insp inter iso lwfe lws wb us pd q uhs av sf sm : Bool)
      (paths : List String) (pr : List UInt8) (eem : List ExtensionModule)
      (ra : PythonRawAllocator) (tr : TerminfoResolution) (r : PythonRunMode),
      ∃ c : PythonConfig,
        PythonConfig.mk sioEnc sioErr optLevel uci fi paths bytesWarning is ius ipe insp
          inter iso lwfe lws wb us pd q uhs verb pr eem av sf sm ra tr wmde r = c) :=
  ⟨fun _ => ⟨_, rfl⟩, fun _ _ => ⟨_, rfl⟩, fun _ _ => ⟨_, rfl⟩,
   fun _ _ _ _ _ _ _ _ _ _ _ _ _ _ _ _ _ _ _ _ _ _ _ _ _ _ _ _ _ _ => ⟨_, rfl⟩⟩

/-- Claim C10: in the default configuration the three optional string
fields `standard_io_encoding`, `standard_io_errors` and
`write_modules_directory_env` are all absent (`none`). -/
theorem default_optional_strings_none (windows : Bool) :
    (PythonConfig.default windows).standard_io_encoding = none ∧
    (PythonConfig.default windows).standard_io_errors = none ∧
    (PythonConfig.default windows).write_modules_directory_env = none :=
  ⟨rfl, rfl, rfl⟩
